import Mathlib

/-!
Verification of the Android key-attestation certificate-chain validator
(pallets/acurast/common/src/attestation.rs): a shallow embedding of the
chain walker, the signature-algorithm dispatch, the RSA and ECDSA
verification routines, the trusted-root check and the attestation-extension
extractor, together with theorems settling the frozen claims.

External crates (the asn1 DER parser, num-bigint, the RustCrypto p256 and
p384 curve arithmetic, sha2) are modelled as parameters collected in the
`Prims` structure; everything the repository code itself does with their
results is embedded concretely. The DER reading that
`peek_attestation_version` performs is embedded concretely because one claim
depends on its exact behaviour.
-/

namespace Attestation

/-- Byte strings are lists of naturals (each byte is below 256 on real inputs). -/
abbrev Bytes := List Nat

/-- Modelled from the spec: the closed error taxonomy of error.rs (spec
section 7), a file that is not among the provided sources. Errors arriving
from external parsers through the Rust question-mark operator are modelled
as ParseError, the variant the spec gives for malformed DER. -/
inductive ValidationError where
  | ChainTooShort
  | UntrustedRoot
  | ExtensionMissing
  | ParseError
  | UnsupportedAttestationVersion (version : Int)
  | MissingECDSAAlgorithmTyp
  | ParseP256PublicKey
  | UnsupportedPublicKeyAlgorithm
  | UnsupportedSignatureAlgorithm
  | SignatureMismatch
  | InvalidSignatureEncoding
  | InvalidSignature
  | InvalidIssuer
  | MissingPublicKey
  deriving DecidableEq

/-- Result of a Rust function that may panic: `panic` models a Rust panic
(index underflow, copy_from_slice length mismatch, division by zero),
`err` an early return carrying a ValidationError, `ok` normal completion. -/
inductive RustResult (α : Type) where
  | panic
  | err (e : ValidationError)
  | ok (a : α)
  deriving DecidableEq

/-- Modelled from the spec: the AlgorithmIdentifier shape of the asn module
(not among the provided sources); `algorithm` is the OID as its arc list and
`parameters` the raw bytes of the optional parameter element
(asn1 full_data). -/
structure AlgorithmIdentifier where
  algorithm : List Nat
  parameters : Option Bytes
  deriving DecidableEq

/-- Modelled from the spec: SubjectPublicKeyInfo with the subject public key
kept as the bytes of its BIT STRING. -/
structure SubjectPublicKeyInfo where
  algorithm : AlgorithmIdentifier
  subject_public_key : Bytes
  deriving DecidableEq

/-- Modelled from the spec: an X.509 extension record, an OID plus the
OCTET STRING contents. -/
structure Extension where
  extn_id : List Nat
  extn_value : Bytes
  deriving DecidableEq

/-- Modelled from the spec: a distinguished name is only ever re-encoded to
DER by the validator (spec section 3), so its carrier here is opaque bytes. -/
abbrev Name := Bytes

/-- Modelled from the spec: the fields of TBSCertificate that the validator
reads (spec section 3); `serial_number` holds the big-endian bytes of the
DER INTEGER, exactly what asn1 BigUint as_bytes returns. -/
structure TBSCertificate where
  serial_number : Bytes
  signature : AlgorithmIdentifier
  issuer : Name
  subject_public_key_info : SubjectPublicKeyInfo
  extensions : Option (List Extension)
  deriving DecidableEq

/-- Modelled from the spec: the outer Certificate SEQUENCE. -/
structure Certificate where
  tbs_certificate : TBSCertificate
  signature_algorithm : AlgorithmIdentifier
  signature_value : Bytes
  deriving DecidableEq

/-- Opaque handle produced by the external p256 from_sec1_bytes. -/
abbrev P256VerifyingKey := Bytes

/-- Opaque p384 field element produced by from_be_slice. -/
abbrev P384FieldElement := Bytes

/-- Opaque decoded P-256 signature (p256 Signature::from_der). -/
abbrev P256Sig := Bytes

/-- Opaque decoded P-384 signature (ecdsa_vendored Signature::from_der). -/
abbrev P384Sig := Bytes

/-- The p384 AffinePoint record as constructed by PublicKey::parse. -/
structure P384AffinePoint where
  x : P384FieldElement
  y : P384FieldElement
  infinity : Nat
  deriving DecidableEq

/-- RSA public key: exponent and modulus as unbounded naturals
(num-bigint BigUint). -/
structure RSAPbk where
  exponent : Nat
  modulus : Nat
  deriving DecidableEq

inductive ECDSACurve where
  | CurveP256 (k : P256VerifyingKey)
  | CurveP384 (p : P384AffinePoint)
  deriving DecidableEq

inductive PublicKey where
  | RSA (pbk : RSAPbk)
  | ECDSA (c : ECDSACurve)
  deriving DecidableEq

/-- The pair of DER-encoded issuer name and big-endian serial-number bytes. -/
abbrev CertificateId := Bytes × Bytes

/-- Modelled from the spec: the parsed KeyDescription records of the asn
module are opaque to the validator logic embedded here, so their carriers
are bytes; the version-specific parsers are external primitives. -/
abbrev KeyDescriptionV1 := Bytes

/-- Opaque carrier for the version 2 schema. -/
abbrev KeyDescriptionV2 := Bytes

/-- Opaque carrier for the version 3 schema. -/
abbrev KeyDescriptionV3 := Bytes

/-- Opaque carrier for the version 4 schema. -/
abbrev KeyDescriptionV4 := Bytes

/-- Opaque carrier for the KeyMint schema shared by versions 100, 200, 300. -/
abbrev KeyDescriptionKeyMint := Bytes

/-- Modelled from the spec: the tagged KeyDescription union, one variant per
supported attestationVersion. -/
inductive KeyDescription where
  | V1 (d : KeyDescriptionV1)
  | V2 (d : KeyDescriptionV2)
  | V3 (d : KeyDescriptionV3)
  | V4 (d : KeyDescriptionV4)
  | V100 (d : KeyDescriptionKeyMint)
  | V200 (d : KeyDescriptionKeyMint)
  | V300 (d : KeyDescriptionKeyMint)
  deriving DecidableEq

/-- OID of the Android key attestation extension. -/
def KEY_ATTESTATION_OID : List Nat := [1, 3, 6, 1, 4, 1, 11129, 2, 1, 17]

/-- OID 1.2.840.113549.1.1.11, RSA with SHA-256. -/
def RSA_ALGORITHM : List Nat := [1, 2, 840, 113549, 1, 1, 11]

/-- OID 1.2.840.10045.4.3.2, ECDSA with SHA-256. -/
def ECDSA_WITH_SHA256_ALGORITHM : List Nat := [1, 2, 840, 10045, 4, 3, 2]

/-- OID 1.2.840.10045.4.3.3, ECDSA with SHA-384. -/
def ECDSA_WITH_SHA384_ALGORITHM : List Nat := [1, 2, 840, 10045, 4, 3, 3]

/-- OID 1.2.840.113549.1.1.1, RSA public keys. -/
def RSA_PBK : List Nat := [1, 2, 840, 113549, 1, 1, 1]

/-- OID 1.2.840.10045.2.1, ECDSA public keys. -/
def ECDSA_PBK : List Nat := [1, 2, 840, 10045, 2, 1]

/-- OID 1.2.840.10045.3.1.7, the P-256 curve. -/
def CURVE_P256 : List Nat := [1, 2, 840, 10045, 3, 1, 7]

/-- OID 1.3.132.0.34, the P-384 curve. -/
def CURVE_P384 : List Nat := [1, 3, 132, 0, 34]

/-- The external library primitives the validator calls: the asn1 DER parser
entry points, the sha2 digests and the RustCrypto curve operations. The
embedding is parametric in these, so every claim proved for all `Prims`
holds whatever the cryptographic details are. `parse_rsa_public_key` returns
the (modulus, exponent) byte pair of the RSAPublicKey SEQUENCE. -/
structure Prims where
  sha256 : Bytes → Bytes
  sha384 : Bytes → Bytes
  parse_cert : Bytes → Option Certificate
  parse_cert_payload : Bytes → Option Bytes
  write_name : Name → Option Bytes
  parse_rsa_public_key : Bytes → Option (Bytes × Bytes)
  parse_oid : Bytes → Option (List Nat)
  p256_from_sec1 : Bytes → Option P256VerifyingKey
  fe_from_be_slice : Bytes → Option P384FieldElement
  p256_sig_from_der : Bytes → Option P256Sig
  p384_sig_from_der : Bytes → Option P384Sig
  p256_verify_prehash : P256VerifyingKey → Bytes → P256Sig → Bool
  p384_verify_prehashed : P384AffinePoint → Bytes → P384Sig → Bool
  parse_kd_v1 : Bytes → Option KeyDescriptionV1
  parse_kd_v2 : Bytes → Option KeyDescriptionV2
  parse_kd_v3 : Bytes → Option KeyDescriptionV3
  parse_kd_v4 : Bytes → Option KeyDescriptionV4
  parse_kd_keymint : Bytes → Option KeyDescriptionKeyMint

/-- Big-endian bytes to an unsigned integer (num-bigint from_bytes_be). -/
def fromBytesBe (bs : Bytes) : Nat := bs.foldl (fun acc b => acc * 256 + b) 0

/-- Helper for the minimal big-endian encoding; the first argument is fuel,
always called with fuel at least the value being encoded. -/
def natToBytesBeAux : Nat → Nat → Bytes
  | 0, _ => []
  | _, 0 => []
  | fuel + 1, n + 1 => natToBytesBeAux fuel ((n + 1) / 256) ++ [(n + 1) % 256]

/-- Minimal big-endian encoding of a natural (num-bigint to_bytes_be); the
zero value encodes as the single byte 0. -/
def to_bytes_be (n : Nat) : Bytes := if n = 0 then [0] else natToBytesBeAux n n

/-- The digest type parameter D of validate_ecdsa. -/
inductive HashAlg where
  | sha256
  | sha384
  deriving DecidableEq

/-- Dispatch a HashAlg to the corresponding sha2 primitive. -/
def Prims.digest (P : Prims) : HashAlg → Bytes → Bytes
  | .sha256 => P.sha256
  | .sha384 => P.sha384

/-- Models the external p256 crate Verifier::verify for VerifyingKey: the
message is hashed with SHA-256 (the digest associated with the P-256 curve
in the RustCrypto ecdsa crate) and that digest is verified as a prehashed
value. The digest is fixed to SHA-256 by the crate, independently of the
signature-algorithm OID of the certificate being checked. -/
def p256_verify (P : Prims) (vk : P256VerifyingKey) (msg : Bytes) (s : P256Sig) : Bool :=
  P.p256_verify_prehash vk (P.sha256 msg) s

/-- Embeds validate_rsa. num-bigint modpow panics on a zero modulus, and the
slice computed[computed.len() - hashed.len()..] panics when the encoded
modular power is shorter than the digest. -/
def validate_rsa (P : Prims) (payload sigval : Bytes) (pbk : RSAPbk) : RustResult Unit :=
  if pbk.modulus = 0 then .panic
  else
    let computed := to_bytes_be (fromBytesBe sigval ^ pbk.exponent % pbk.modulus)
    let hashed := P.sha256 payload
    if computed.length < hashed.length then .panic
    else if hashed = computed.drop (computed.length - hashed.length) then .ok ()
    else .err .InvalidSignature

/-- Embeds validate_ecdsa with digest type parameter D. In the source D is
used only in the P-384 arm; the P-256 arm calls the standard verify of the
verifying key on the raw payload. In the P-384 arm, copy_from_slice panics
unless the digest length is exactly 48 when it is not 32. -/
def validate_ecdsa (P : Prims) (D : HashAlg) (payload sigval : Bytes) (curve : ECDSACurve) :
    RustResult Unit :=
  match curve with
  | .CurveP256 verifying_key =>
    match P.p256_sig_from_der sigval with
    | none => .err .InvalidSignatureEncoding
    | some s =>
      if p256_verify P verifying_key payload s then .ok () else .err .InvalidSignature
  | .CurveP384 affine_point =>
    match P.p384_sig_from_der sigval with
    | none => .err .InvalidSignatureEncoding
    | some s =>
      let hashed := P.digest D payload
      if hashed.length = 32 then
        if P.p384_verify_prehashed affine_point (List.replicate 16 0 ++ hashed) s then .ok ()
        else .err .InvalidSignature
      else if hashed.length = 48 then
        if P.p384_verify_prehashed affine_point hashed s then .ok ()
        else .err .InvalidSignature
      else .panic

/-- Embeds the validate dispatcher: outer and inner signature algorithms
must agree, then the signature OID selects the verification routine and the
public key variant must match it. -/
def validate (P : Prims) (cert : Certificate) (payload : Bytes) (pbk : PublicKey) :
    RustResult Unit :=
  if cert.signature_algorithm.algorithm ≠ cert.tbs_certificate.signature.algorithm then
    .err .SignatureMismatch
  else if cert.signature_algorithm.algorithm = RSA_ALGORITHM then
    match pbk with
    | .RSA r => validate_rsa P payload cert.signature_value r
    | _ => .err .UnsupportedPublicKeyAlgorithm
  else if cert.signature_algorithm.algorithm = ECDSA_WITH_SHA256_ALGORITHM then
    match pbk with
    | .ECDSA curve => validate_ecdsa P .sha256 payload cert.signature_value curve
    | _ => .err .UnsupportedPublicKeyAlgorithm
  else if cert.signature_algorithm.algorithm = ECDSA_WITH_SHA384_ALGORITHM then
    match pbk with
    | .ECDSA curve => validate_ecdsa P .sha384 payload cert.signature_value curve
    | _ => .err .UnsupportedPublicKeyAlgorithm
  else
    .err .UnsupportedSignatureAlgorithm

/-- Embeds PublicKey::parse. The slice [1..] of the subject public key in
the P-384 arm panics when the bit string is empty. -/
def PublicKey.parse (P : Prims) (info : SubjectPublicKeyInfo) : RustResult PublicKey :=
  if info.algorithm.algorithm = RSA_PBK then
    match P.parse_rsa_public_key info.subject_public_key with
    | none => .err .ParseError
    | some (modulus_bytes, exponent_bytes) =>
      .ok (.RSA ⟨fromBytesBe exponent_bytes, fromBytesBe modulus_bytes⟩)
  else if info.algorithm.algorithm = ECDSA_PBK then
    match info.algorithm.parameters with
    | none => .err .MissingECDSAAlgorithmTyp
    | some pbk_param =>
      match P.parse_oid pbk_param with
      | none => .err .ParseError
      | some typ =>
        if typ = CURVE_P256 then
          match P.p256_from_sec1 info.subject_public_key with
          | none => .err .ParseP256PublicKey
          | some verifying_key => .ok (.ECDSA (.CurveP256 verifying_key))
        else if typ = CURVE_P384 then
          if info.subject_public_key.length = 0 then .panic
          else
            let encoded := info.subject_public_key.drop 1
            let middle := encoded.length / 2
            match P.fe_from_be_slice (encoded.take middle) with
            | none => .err .ParseError
            | some x =>
              match P.fe_from_be_slice (encoded.drop middle) with
              | none => .err .ParseError
              | some y => .ok (.ECDSA (.CurveP384 ⟨x, y, 0⟩))
        else .err .UnsupportedSignatureAlgorithm
  else .err .UnsupportedPublicKeyAlgorithm

/-- Embeds unique_id: DER-encode the issuer Name (asn1 write_single) and
pair it with the big-endian serial-number bytes. -/
def unique_id (P : Prims) (issuer : Name) (serial_number : Bytes) : RustResult CertificateId :=
  match P.write_name issuer with
  | none => .err .InvalidIssuer
  | some issuer_encoded => .ok (issuer_encoded, serial_number)

/-- The try_fold accumulator of validate_certificate_chain, with the list of
certificate ids (a mutable Vec in the source, pushed once per iteration)
threaded through as the first component. -/
abbrev FoldState := List CertificateId × Option PublicKey × Option Certificate

/-- Embeds the closure of the try_fold in validate_certificate_chain: parse
the certificate and its raw tbsCertificate bytes, extract the subject public
key, verify against the previous key (falling back to the own key only when
there is no previous one, i.e. for the first certificate), record the
certificate id and pass on the freshly extracted key. -/
def chainStep (P : Prims) (acc : FoldState) (cert_data : Bytes) : RustResult FoldState :=
  match P.parse_cert cert_data with
  | none => .err .ParseError
  | some cert =>
    match P.parse_cert_payload cert_data with
    | none => .err .ParseError
    | some payload =>
      match PublicKey.parse P cert.tbs_certificate.subject_public_key_info with
      | .panic => .panic
      | .err e => .err e
      | .ok current_pbk =>
        match validate P cert payload (acc.2.1.getD current_pbk) with
        | .panic => .panic
        | .err e => .err e
        | .ok _ =>
          match unique_id P cert.tbs_certificate.issuer cert.tbs_certificate.serial_number with
          | .panic => .panic
          | .err e => .err e
          | .ok uid => .ok (acc.1 ++ [uid], some current_pbk, some cert)

/-- The try_fold of validate_certificate_chain: run chainStep left to right,
stopping at the first error or panic. -/
def chainFold (P : Prims) : FoldState → List Bytes → RustResult FoldState
  | acc, [] => .ok acc
  | acc, cert_data :: rest =>
    match chainStep P acc cert_data with
    | .panic => .panic
    | .err e => .err e
    | .ok acc2 => chainFold P acc2 rest

/-- Embeds validate_certificate_chain: fold over the chain from the state
(no ids, no previous key, no previous certificate), then require a last
certificate (else ChainTooShort) and a last public key (else
MissingPublicKey). -/
def validate_certificate_chain (P : Prims) (chain : List Bytes) :
    RustResult (List CertificateId × TBSCertificate × PublicKey) :=
  match chainFold P ([], none, none) chain with
  | .panic => .panic
  | .err e => .err e
  | .ok (cert_ids, fold_pbk, fold_cert) =>
    match fold_cert with
    | none => .err .ChainTooShort
    | some last_cert =>
      match fold_pbk with
      | none => .err .MissingPublicKey
      | some last_cert_pbk => .ok (cert_ids, last_cert.tbs_certificate, last_cert_pbk)

/-- Trusted root certificate 1, decoded from the base64 text given in the source comment above its include_bytes entry. -/
def trustedRootCert1 : Bytes := [48, 130, 5, 96, 48, 130, 3, 72, 160, 3, 2, 1, 2, 2, 9, 0, 232, 250, 25, 99, 20, 210, 250, 24, 48, 13, 6, 9, 42, 134, 72, 134, 247, 13, 1, 1, 11, 5, 0, 48, 27, 49, 25, 48, 23, 6, 3, 85, 4, 5, 19, 16, 102, 57, 50, 48, 48, 57, 101, 56, 53, 51, 98, 54, 98, 48, 52, 53, 48, 30, 23, 13, 49, 54, 48, 53, 50, 54, 49, 54, 50, 56, 53, 50, 90, 23, 13, 50, 54, 48, 53, 50, 52, 49, 54, 50, 56, 53, 50, 90, 48, 27, 49, 25, 48, 23, 6, 3, 85, 4, 5, 19, 16, 102, 57, 50, 48, 48, 57, 101, 56, 53, 51, 98, 54, 98, 48, 52, 53, 48, 130, 2, 34, 48, 13, 6, 9, 42, 134, 72, 134, 247, 13, 1, 1, 1, 5, 0, 3, 130, 2, 15, 0, 48, 130, 2, 10, 2, 130, 2, 1, 0, 175, 182, 199, 130, 43, 177, 167, 1, 236, 43, 180, 46, 139, 204, 84, 22, 99, 171, 239, 152, 47, 50, 199, 127, 117, 49, 3, 12, 151, 82, 75, 27, 95, 232, 9, 251, 199, 42, 169, 69, 31, 116, 60, 189, 154, 111, 19, 53, 116, 74, 165, 94, 119, 246, 182, 172, 53, 53, 238, 23, 194, 94, 99, 149, 23, 221, 156, 146, 230, 55, 74, 83, 203, 254, 37, 143, 143, 251, 182, 253, 18, 147, 120, 162, 42, 76, 169, 156, 69, 45, 71, 165, 159, 50, 1, 244, 65, 151, 202, 28, 205, 126, 118, 47, 178, 245, 49, 81, 182, 254, 178, 255, 253, 43, 111, 228, 254, 91, 198, 189, 158, 195, 75, 254, 8, 35, 157, 170, 252, 235, 142, 181, 168, 237, 43, 58, 205, 156, 94, 58, 119, 144, 225, 181, 20, 66, 121, 49, 89, 133, 152, 17, 173, 158, 178, 169, 107, 189, 215, 165, 124, 147, 169, 28, 65, 252, 205, 39, 214, 127, 214, 246, 113, 170, 11, 129, 82, 97, 173, 56, 79, 163, 121, 68, 134, 70, 4, 221, 179, 216, 196, 249, 32, 161, 155, 22, 86, 194, 241, 74, 214, 208, 60, 86, 236, 6, 8, 153, 4, 28, 30, 209, 165, 254, 109, 52, 64, 181, 86, 186, 209, 208, 161, 82, 88, 156, 83, 229, 93, 55, 7, 98, 240, 18, 46, 239, 145, 134, 27, 27, 14, 108, 76, 128, 146, 116, 153, 192, 233, 190, 192, 184, 62, 59, 193, 249, 60, 114, 192, 73, 96, 75, 189, 47, 19, 69, 230, 44, 63, 142, 38, 219, 236, 6, 201, 71, 102, 243, 193, 40, 35, 157, 79, 67, 18, 250, 216, 18, 56, 135, 224, 107, 236, 245, 103, 88, 59, 248, 53, 90, 129, 254, 234, 186, 249, 154, 131, 200, 223, 62, 42, 50, 42, 252, 103, 43, 241, 32, 177, 53, 21, 139, 104, 33, 206, 175, 48, 155, 110, 238, 119, 249, 136, 51, 176, 24, 218, 161, 14, 69, 31, 6, 163, 116, 213, 7, 129, 243, 89, 8, 41, 102, 187, 119, 139, 147, 8, 148, 38, 152, 231, 78, 11, 205, 36, 98, 138, 1, 194, 204, 3, 229, 31, 11, 62, 91, 74, 193, 228, 223, 158, 175, 159, 246, 164, 146, 167, 124, 20, 131, 136, 40, 133, 1, 91, 66, 44, 230, 123, 128, 184, 140, 155, 72, 225, 59, 96, 122, 181, 69, 199, 35, 255, 140, 68, 248, 242, 211, 104, 185, 246, 82, 13, 49, 20, 94, 191, 158, 134, 42, 215, 29, 246, 163, 191, 210, 69, 9, 89, 214, 83, 116, 13, 151, 161, 47, 54, 139, 19, 239, 102, 213, 208, 165, 74, 110, 47, 93, 154, 111, 239, 68, 104, 50, 188, 103, 132, 71, 37, 134, 31, 9, 61, 208, 230, 243, 64, 93, 168, 150, 67, 239, 15, 77, 105, 182, 66, 0, 81, 253, 185, 48, 73, 103, 62, 54, 149, 5, 128, 211, 205, 244, 251, 208, 139, 197, 132, 131, 149, 38, 0, 99, 2, 3, 1, 0, 1, 163, 129, 166, 48, 129, 163, 48, 29, 6, 3, 85, 29, 14, 4, 22, 4, 20, 54, 97, 225, 0, 124, 136, 5, 9, 81, 139, 68, 108, 71, 255, 26, 76, 201, 234, 79, 18, 48, 31, 6, 3, 85, 29, 35, 4, 24, 48, 22, 128, 20, 54, 97, 225, 0, 124, 136, 5, 9, 81, 139, 68, 108, 71, 255, 26, 76, 201, 234, 79, 18, 48, 15, 6, 3, 85, 29, 19, 1, 1, 255, 4, 5, 48, 3, 1, 1, 255, 48, 14, 6, 3, 85, 29, 15, 1, 1, 255, 4, 4, 3, 2, 1, 134, 48, 64, 6, 3, 85, 29, 31, 4, 57, 48, 55, 48, 53, 160, 51, 160, 49, 134, 47, 104, 116, 116, 112, 115, 58, 47, 47, 97, 110, 100, 114, 111, 105, 100, 46, 103, 111, 111, 103, 108, 101, 97, 112, 105, 115, 46, 99, 111, 109, 47, 97, 116, 116, 101, 115, 116, 97, 116, 105, 111, 110, 47, 99, 114, 108, 47, 48, 13, 6, 9, 42, 134, 72, 134, 247, 13, 1, 1, 11, 5, 0, 3, 130, 2, 1, 0, 32, 200, 195, 141, 75, 220, 169, 87, 27, 70, 140, 137, 47, 255, 114, 170, 198, 248, 68, 161, 29, 65, 168, 240, 115, 108, 195, 125, 22, 214, 66, 109, 142, 126, 148, 7, 4, 76, 234, 57, 230, 139, 7, 193, 61, 191, 21, 3, 221, 92, 133, 189, 175, 178, 192, 45, 95, 108, 219, 78, 250, 129, 39, 223, 139, 4, 241, 130, 119, 15, 196, 231, 116, 91, 127, 206, 170, 135, 18, 154, 136, 1, 206, 142, 155, 192, 203, 150, 55, 155, 77, 38, 168, 45, 48, 253, 156, 47, 142, 237, 109, 193, 190, 47, 132, 182, 137, 228, 217, 20, 37, 139, 20, 75, 186, 230, 36, 161, 199, 6, 113, 19, 46, 47, 6, 22, 168, 132, 178, 164, 214, 164, 111, 250, 137, 182, 2, 191, 186, 216, 12, 18, 67, 113, 31, 86, 235, 96, 86, 246, 55, 200, 160, 20, 28, 197, 64, 148, 38, 139, 140, 60, 125, 185, 148, 179, 92, 13, 205, 108, 178, 171, 194, 218, 254, 226, 82, 2, 61, 45, 234, 12, 214, 195, 104, 190, 163, 230, 65, 72, 134, 246, 177, 229, 139, 91, 215, 199, 48, 178, 104, 196, 227, 193, 251, 100, 36, 185, 31, 235, 189, 184, 12, 88, 110, 42, 232, 54, 140, 132, 213, 209, 9, 23, 189, 162, 86, 23, 137, 212, 104, 115, 147, 52, 14, 46, 37, 79, 86, 14, 246, 75, 35, 88, 252, 220, 15, 191, 198, 112, 9, 82, 231, 8, 191, 252, 198, 39, 80, 12, 31, 102, 232, 30, 161, 124, 9, 141, 122, 46, 155, 24, 128, 27, 122, 180, 172, 113, 88, 125, 52, 93, 204, 131, 9, 213, 182, 42, 80, 66, 122, 166, 208, 61, 203, 5, 153, 108, 150, 186, 12, 93, 113, 233, 33, 98, 192, 22, 202, 132, 159, 243, 95, 13, 82, 198, 93, 5, 96, 90, 71, 243, 174, 145, 122, 205, 45, 249, 16, 239, 210, 50, 102, 136, 89, 110, 246, 155, 59, 245, 254, 49, 84, 247, 174, 184, 128, 160, 167, 60, 160, 77, 148, 194, 206, 131, 23, 238, 180, 61, 94, 255, 88, 131, 227, 54, 245, 242, 73, 218, 172, 164, 137, 146, 55, 191, 38, 126, 92, 67, 171, 2, 234, 68, 22, 36, 3, 114, 59, 230, 170, 105, 44, 97, 189, 174, 158, 212, 9, 212, 99, 196, 201, 124, 100, 48, 101, 119, 238, 242, 188, 117, 96, 183, 87, 21, 204, 156, 125, 198, 124, 134, 8, 45, 183, 81, 168, 156, 48, 52, 151, 98, 176, 120, 35, 133, 135, 92, 241, 163, 198, 22, 110, 10, 227, 193, 45, 55, 78, 45, 79, 24, 70, 243, 24, 116, 75, 216, 121, 181, 135, 50, 155, 240, 24, 33, 122, 108, 12, 119, 36, 26, 72, 120, 228, 53, 192, 48, 121, 203, 69, 18, 137, 197, 119, 98, 6, 6, 154, 47, 141, 101, 248, 64, 225, 68, 82, 135, 190, 216, 119, 171, 174, 36, 226, 68, 53, 22, 141, 85, 60, 228]

/-- Trusted root certificate 2, decoded from the base64 text given in the source comment above its include_bytes entry. -/
def trustedRootCert2 : Bytes := [48, 130, 5, 28, 48, 130, 3, 4, 160, 3, 2, 1, 2, 2, 9, 0, 213, 15, 242, 91, 163, 242, 214, 179, 48, 13, 6, 9, 42, 134, 72, 134, 247, 13, 1, 1, 11, 5, 0, 48, 27, 49, 25, 48, 23, 6, 3, 85, 4, 5, 19, 16, 102, 57, 50, 48, 48, 57, 101, 56, 53, 51, 98, 54, 98, 48, 52, 53, 48, 30, 23, 13, 49, 57, 49, 49, 50, 50, 50, 48, 51, 55, 53, 56, 90, 23, 13, 51, 52, 49, 49, 49, 56, 50, 48, 51, 55, 53, 56, 90, 48, 27, 49, 25, 48, 23, 6, 3, 85, 4, 5, 19, 16, 102, 57, 50, 48, 48, 57, 101, 56, 53, 51, 98, 54, 98, 48, 52, 53, 48, 130, 2, 34, 48, 13, 6, 9, 42, 134, 72, 134, 247, 13, 1, 1, 1, 5, 0, 3, 130, 2, 15, 0, 48, 130, 2, 10, 2, 130, 2, 1, 0, 175, 182, 199, 130, 43, 177, 167, 1, 236, 43, 180, 46, 139, 204, 84, 22, 99, 171, 239, 152, 47, 50, 199, 127, 117, 49, 3, 12, 151, 82, 75, 27, 95, 232, 9, 251, 199, 42, 169, 69, 31, 116, 60, 189, 154, 111, 19, 53, 116, 74, 165, 94, 119, 246, 182, 172, 53, 53, 238, 23, 194, 94, 99, 149, 23, 221, 156, 146, 230, 55, 74, 83, 203, 254, 37, 143, 143, 251, 182, 253, 18, 147, 120, 162, 42, 76, 169, 156, 69, 45, 71, 165, 159, 50, 1, 244, 65, 151, 202, 28, 205, 126, 118, 47, 178, 245, 49, 81, 182, 254, 178, 255, 253, 43, 111, 228, 254, 91, 198, 189, 158, 195, 75, 254, 8, 35, 157, 170, 252, 235, 142, 181, 168, 237, 43, 58, 205, 156, 94, 58, 119, 144, 225, 181, 20, 66, 121, 49, 89, 133, 152, 17, 173, 158, 178, 169, 107, 189, 215, 165, 124, 147, 169, 28, 65, 252, 205, 39, 214, 127, 214, 246, 113, 170, 11, 129, 82, 97, 173, 56, 79, 163, 121, 68, 134, 70, 4, 221, 179, 216, 196, 249, 32, 161, 155, 22, 86, 194, 241, 74, 214, 208, 60, 86, 236, 6, 8, 153, 4, 28, 30, 209, 165, 254, 109, 52, 64, 181, 86, 186, 209, 208, 161, 82, 88, 156, 83, 229, 93, 55, 7, 98, 240, 18, 46, 239, 145, 134, 27, 27, 14, 108, 76, 128, 146, 116, 153, 192, 233, 190, 192, 184, 62, 59, 193, 249, 60, 114, 192, 73, 96, 75, 189, 47, 19, 69, 230, 44, 63, 142, 38, 219, 236, 6, 201, 71, 102, 243, 193, 40, 35, 157, 79, 67, 18, 250, 216, 18, 56, 135, 224, 107, 236, 245, 103, 88, 59, 248, 53, 90, 129, 254, 234, 186, 249, 154, 131, 200, 223, 62, 42, 50, 42, 252, 103, 43, 241, 32, 177, 53, 21, 139, 104, 33, 206, 175, 48, 155, 110, 238, 119, 249, 136, 51, 176, 24, 218, 161, 14, 69, 31, 6, 163, 116, 213, 7, 129, 243, 89, 8, 41, 102, 187, 119, 139, 147, 8, 148, 38, 152, 231, 78, 11, 205, 36, 98, 138, 1, 194, 204, 3, 229, 31, 11, 62, 91, 74, 193, 228, 223, 158, 175, 159, 246, 164, 146, 167, 124, 20, 131, 136, 40, 133, 1, 91, 66, 44, 230, 123, 128, 184, 140, 155, 72, 225, 59, 96, 122, 181, 69, 199, 35, 255, 140, 68, 248, 242, 211, 104, 185, 246, 82, 13, 49, 20, 94, 191, 158, 134, 42, 215, 29, 246, 163, 191, 210, 69, 9, 89, 214, 83, 116, 13, 151, 161, 47, 54, 139, 19, 239, 102, 213, 208, 165, 74, 110, 47, 93, 154, 111, 239, 68, 104, 50, 188, 103, 132, 71, 37, 134, 31, 9, 61, 208, 230, 243, 64, 93, 168, 150, 67, 239, 15, 77, 105, 182, 66, 0, 81, 253, 185, 48, 73, 103, 62, 54, 149, 5, 128, 211, 205, 244, 251, 208, 139, 197, 132, 131, 149, 38, 0, 99, 2, 3, 1, 0, 1, 163, 99, 48, 97, 48, 29, 6, 3, 85, 29, 14, 4, 22, 4, 20, 54, 97, 225, 0, 124, 136, 5, 9, 81, 139, 68, 108, 71, 255, 26, 76, 201, 234, 79, 18, 48, 31, 6, 3, 85, 29, 35, 4, 24, 48, 22, 128, 20, 54, 97, 225, 0, 124, 136, 5, 9, 81, 139, 68, 108, 71, 255, 26, 76, 201, 234, 79, 18, 48, 15, 6, 3, 85, 29, 19, 1, 1, 255, 4, 5, 48, 3, 1, 1, 255, 48, 14, 6, 3, 85, 29, 15, 1, 1, 255, 4, 4, 3, 2, 2, 4, 48, 13, 6, 9, 42, 134, 72, 134, 247, 13, 1, 1, 11, 5, 0, 3, 130, 2, 1, 0, 78, 49, 160, 92, 242, 139, 166, 93, 189, 175, 161, 206, 215, 9, 105, 238, 92, 168, 65, 4, 173, 222, 216, 163, 6, 207, 127, 109, 238, 80, 55, 93, 116, 94, 217, 146, 203, 2, 66, 204, 231, 45, 201, 238, 213, 17, 145, 254, 90, 213, 43, 173, 125, 211, 178, 92, 9, 158, 19, 164, 145, 163, 205, 212, 135, 165, 172, 206, 135, 102, 50, 76, 74, 228, 99, 56, 36, 106, 231, 183, 138, 65, 138, 203, 185, 138, 5, 196, 201, 214, 150, 238, 170, 182, 9, 208, 186, 12, 225, 163, 27, 233, 132, 144, 223, 63, 76, 14, 169, 221, 201, 232, 47, 251, 15, 203, 62, 158, 189, 216, 203, 149, 39, 137, 242, 177, 65, 31, 172, 86, 200, 134, 66, 110, 183, 41, 96, 66, 115, 93, 165, 14, 17, 172, 113, 95, 24, 24, 207, 159, 220, 78, 37, 74, 55, 99, 53, 27, 106, 36, 64, 21, 8, 97, 38, 58, 110, 49, 11, 225, 165, 13, 229, 199, 232, 238, 136, 15, 221, 75, 229, 136, 74, 55, 18, 141, 24, 131, 11, 179, 71, 107, 244, 41, 30, 130, 213, 198, 106, 100, 148, 147, 158, 8, 72, 11, 251, 192, 15, 125, 138, 116, 212, 62, 115, 115, 126, 190, 93, 142, 78, 197, 21, 48, 45, 70, 137, 105, 39, 128, 220, 117, 56, 237, 126, 145, 117, 190, 97, 57, 231, 77, 67, 173, 56, 139, 48, 80, 255, 213, 169, 222, 82, 98, 0, 8, 152, 192, 31, 99, 197, 61, 254, 34, 32, 145, 8, 250, 79, 101, 186, 22, 196, 156, 203, 222, 8, 55, 215, 197, 132, 77, 84, 183, 57, 139, 160, 18, 46, 80, 91, 21, 92, 147, 19, 207, 226, 110, 114, 216, 126, 34, 170, 22, 22, 230, 189, 191, 84, 125, 223, 249, 61, 242, 158, 53, 166, 59, 69, 95, 225, 252, 14, 201, 85, 129, 243, 244, 247, 187, 227, 187, 130, 131, 150, 163, 122, 227, 21, 117, 130, 188, 55, 100, 185, 120, 10, 35, 158, 252, 15, 117, 161, 226, 230, 217, 65, 206, 171, 172, 39, 221, 235, 1, 226, 189, 132, 33, 2, 155, 234, 52, 213, 26, 238, 108, 96, 39, 29, 90, 149, 235, 208, 5, 21, 169, 192, 1, 61, 216, 11, 248, 126, 234, 38, 11, 129, 195, 79, 104, 142, 110, 177, 52, 138, 240, 216, 234, 28, 172, 50, 172, 185, 217, 63, 162, 74, 255, 3, 10, 132, 200, 242, 176, 245, 105, 204, 149, 8, 11, 32, 172, 53, 172, 224, 198, 216, 219, 212, 246, 132, 119, 25, 81, 157, 50, 69, 1, 102, 235, 75, 241, 91, 133, 144, 68, 80, 26, 222, 175, 67, 99, 130, 195, 75, 21, 227, 181, 76, 146, 230, 27, 105, 194, 191, 199, 38, 69, 137, 23, 43, 60, 147, 219, 227, 92, 224, 109, 8, 253, 92, 1, 50, 44, 160, 135, 123, 29, 18, 116, 58, 241, 250, 213, 148, 14, 161, 188, 2, 221, 137, 28]

/-- Trusted root certificate 3, decoded from the base64 text given in the source comment above its include_bytes entry. -/
def trustedRootCert3 : Bytes := [48, 130, 5, 28, 48, 130, 3, 4, 160, 3, 2, 1, 2, 2, 9, 0, 195, 107, 124, 68, 185, 174, 24, 49, 48, 13, 6, 9, 42, 134, 72, 134, 247, 13, 1, 1, 11, 5, 0, 48, 27, 49, 25, 48, 23, 6, 3, 85, 4, 5, 19, 16, 102, 57, 50, 48, 48, 57, 101, 56, 53, 51, 98, 54, 98, 48, 52, 53, 48, 30, 23, 13, 50, 49, 49, 49, 49, 55, 50, 51, 49, 48, 52, 50, 90, 23, 13, 51, 54, 49, 49, 49, 51, 50, 51, 49, 48, 52, 50, 90, 48, 27, 49, 25, 48, 23, 6, 3, 85, 4, 5, 19, 16, 102, 57, 50, 48, 48, 57, 101, 56, 53, 51, 98, 54, 98, 48, 52, 53, 48, 130, 2, 34, 48, 13, 6, 9, 42, 134, 72, 134, 247, 13, 1, 1, 1, 5, 0, 3, 130, 2, 15, 0, 48, 130, 2, 10, 2, 130, 2, 1, 0, 175, 182, 199, 130, 43, 177, 167, 1, 236, 43, 180, 46, 139, 204, 84, 22, 99, 171, 239, 152, 47, 50, 199, 127, 117, 49, 3, 12, 151, 82, 75, 27, 95, 232, 9, 251, 199, 42, 169, 69, 31, 116, 60, 189, 154, 111, 19, 53, 116, 74, 165, 94, 119, 246, 182, 172, 53, 53, 238, 23, 194, 94, 99, 149, 23, 221, 156, 146, 230, 55, 74, 83, 203, 254, 37, 143, 143, 251, 182, 253, 18, 147, 120, 162, 42, 76, 169, 156, 69, 45, 71, 165, 159, 50, 1, 244, 65, 151, 202, 28, 205, 126, 118, 47, 178, 245, 49, 81, 182, 254, 178, 255, 253, 43, 111, 228, 254, 91, 198, 189, 158, 195, 75, 254, 8, 35, 157, 170, 252, 235, 142, 181, 168, 237, 43, 58, 205, 156, 94, 58, 119, 144, 225, 181, 20, 66, 121, 49, 89, 133, 152, 17, 173, 158, 178, 169, 107, 189, 215, 165, 124, 147, 169, 28, 65, 252, 205, 39, 214, 127, 214, 246, 113, 170, 11, 129, 82, 97, 173, 56, 79, 163, 121, 68, 134, 70, 4, 221, 179, 216, 196, 249, 32, 161, 155, 22, 86, 194, 241, 74, 214, 208, 60, 86, 236, 6, 8, 153, 4, 28, 30, 209, 165, 254, 109, 52, 64, 181, 86, 186, 209, 208, 161, 82, 88, 156, 83, 229, 93, 55, 7, 98, 240, 18, 46, 239, 145, 134, 27, 27, 14, 108, 76, 128, 146, 116, 153, 192, 233, 190, 192, 184, 62, 59, 193, 249, 60, 114, 192, 73, 96, 75, 189, 47, 19, 69, 230, 44, 63, 142, 38, 219, 236, 6, 201, 71, 102, 243, 193, 40, 35, 157, 79, 67, 18, 250, 216, 18, 56, 135, 224, 107, 236, 245, 103, 88, 59, 248, 53, 90, 129, 254, 234, 186, 249, 154, 131, 200, 223, 62, 42, 50, 42, 252, 103, 43, 241, 32, 177, 53, 21, 139, 104, 33, 206, 175, 48, 155, 110, 238, 119, 249, 136, 51, 176, 24, 218, 161, 14, 69, 31, 6, 163, 116, 213, 7, 129, 243, 89, 8, 41, 102, 187, 119, 139, 147, 8, 148, 38, 152, 231, 78, 11, 205, 36, 98, 138, 1, 194, 204, 3, 229, 31, 11, 62, 91, 74, 193, 228, 223, 158, 175, 159, 246, 164, 146, 167, 124, 20, 131, 136, 40, 133, 1, 91, 66, 44, 230, 123, 128, 184, 140, 155, 72, 225, 59, 96, 122, 181, 69, 199, 35, 255, 140, 68, 248, 242, 211, 104, 185, 246, 82, 13, 49, 20, 94, 191, 158, 134, 42, 215, 29, 246, 163, 191, 210, 69, 9, 89, 214, 83, 116, 13, 151, 161, 47, 54, 139, 19, 239, 102, 213, 208, 165, 74, 110, 47, 93, 154, 111, 239, 68, 104, 50, 188, 103, 132, 71, 37, 134, 31, 9, 61, 208, 230, 243, 64, 93, 168, 150, 67, 239, 15, 77, 105, 182, 66, 0, 81, 253, 185, 48, 73, 103, 62, 54, 149, 5, 128, 211, 205, 244, 251, 208, 139, 197, 132, 131, 149, 38, 0, 99, 2, 3, 1, 0, 1, 163, 99, 48, 97, 48, 29, 6, 3, 85, 29, 14, 4, 22, 4, 20, 54, 97, 225, 0, 124, 136, 5, 9, 81, 139, 68, 108, 71, 255, 26, 76, 201, 234, 79, 18, 48, 31, 6, 3, 85, 29, 35, 4, 24, 48, 22, 128, 20, 54, 97, 225, 0, 124, 136, 5, 9, 81, 139, 68, 108, 71, 255, 26, 76, 201, 234, 79, 18, 48, 15, 6, 3, 85, 29, 19, 1, 1, 255, 4, 5, 48, 3, 1, 1, 255, 48, 14, 6, 3, 85, 29, 15, 1, 1, 255, 4, 4, 3, 2, 2, 4, 48, 13, 6, 9, 42, 134, 72, 134, 247, 13, 1, 1, 11, 5, 0, 3, 130, 2, 1, 0, 83, 52, 214, 94, 229, 203, 159, 242, 136, 170, 250, 53, 116, 138, 212, 198, 205, 101, 97, 73, 56, 206, 4, 73, 54, 21, 11, 225, 215, 82, 119, 163, 121, 103, 107, 74, 59, 173, 223, 17, 20, 121, 205, 211, 74, 184, 134, 46, 147, 106, 145, 97, 135, 138, 154, 195, 248, 134, 233, 120, 62, 196, 230, 167, 235, 121, 226, 45, 98, 2, 228, 99, 143, 22, 3, 222, 97, 115, 61, 250, 112, 91, 223, 54, 115, 11, 192, 1, 202, 150, 46, 10, 235, 22, 10, 107, 122, 78, 125, 254, 62, 54, 243, 220, 196, 213, 133, 17, 151, 185, 63, 211, 64, 126, 10, 24, 86, 56, 62, 27, 243, 3, 37, 240, 118, 52, 206, 9, 114, 3, 249, 161, 238, 119, 132, 75, 113, 44, 146, 175, 65, 106, 252, 191, 145, 241, 53, 154, 150, 243, 53, 192, 146, 79, 135, 36, 99, 169, 16, 137, 122, 177, 173, 124, 22, 160, 136, 2, 243, 190, 25, 230, 99, 181, 53, 168, 87, 18, 208, 208, 167, 42, 58, 14, 238, 129, 94, 116, 167, 86, 149, 156, 244, 96, 7, 238, 221, 161, 130, 37, 222, 10, 29, 61, 12, 176, 104, 139, 101, 236, 253, 88, 255, 53, 197, 132, 171, 40, 195, 68, 176, 50, 190, 204, 174, 95, 87, 60, 58, 140, 14, 220, 198, 106, 87, 112, 4, 83, 158, 96, 46, 25, 71, 136, 237, 85, 67, 132, 60, 202, 121, 83, 156, 181, 253, 218, 210, 164, 11, 192, 47, 157, 211, 236, 107, 17, 54, 120, 175, 103, 209, 24, 220, 54, 96, 75, 54, 91, 196, 35, 234, 128, 220, 124, 251, 234, 244, 156, 146, 123, 186, 73, 235, 7, 7, 158, 94, 68, 103, 73, 112, 115, 140, 71, 237, 142, 3, 199, 212, 64, 212, 153, 95, 162, 130, 204, 195, 123, 78, 116, 150, 71, 209, 233, 241, 61, 118, 178, 117, 240, 3, 221, 136, 159, 121, 154, 69, 105, 76, 226, 112, 119, 139, 205, 82, 75, 183, 215, 111, 24, 29, 27, 29, 2, 196, 227, 225, 42, 40, 88, 14, 102, 253, 132, 160, 254, 188, 232, 52, 42, 109, 84, 181, 187, 239, 100, 210, 157, 177, 108, 192, 53, 211, 148, 193, 34, 78, 231, 166, 182, 154, 241, 83, 52, 126, 122, 209, 42, 46, 240, 149, 146, 176, 116, 127, 154, 52, 12, 161, 109, 116, 86, 247, 27, 39, 56, 50, 126, 131, 199, 133, 227, 157, 179, 189, 184, 138, 42, 120, 4, 42, 42, 202, 228, 177, 162, 122, 133, 193, 95, 187, 89, 244, 61, 70, 52, 17, 246, 57, 189, 219, 40, 236, 48, 33, 103, 68, 22, 87, 191, 96, 95, 225, 235, 53, 160, 117, 234, 26, 52, 96, 234, 84, 26, 203, 175, 111, 180, 14, 213, 168, 136, 29, 90, 12, 72, 203, 90, 95, 69, 155, 34, 20, 201, 73, 187, 152, 63, 239, 20, 57, 51, 23, 236, 38, 237, 204, 150, 165, 10, 66, 85]

/-- Trusted root certificate 4, decoded from the base64 text given in the source comment above its include_bytes entry. -/
def trustedRootCert4 : Bytes := [48, 130, 5, 28, 48, 130, 3, 4, 160, 3, 2, 1, 2, 2, 9, 0, 241, 193, 114, 166, 153, 234, 245, 29, 48, 13, 6, 9, 42, 134, 72, 134, 247, 13, 1, 1, 11, 5, 0, 48, 27, 49, 25, 48, 23, 6, 3, 85, 4, 5, 19, 16, 102, 57, 50, 48, 48, 57, 101, 56, 53, 51, 98, 54, 98, 48, 52, 53, 48, 30, 23, 13, 50, 50, 48, 51, 50, 48, 49, 56, 48, 55, 52, 56, 90, 23, 13, 52, 50, 48, 51, 49, 53, 49, 56, 48, 55, 52, 56, 90, 48, 27, 49, 25, 48, 23, 6, 3, 85, 4, 5, 19, 16, 102, 57, 50, 48, 48, 57, 101, 56, 53, 51, 98, 54, 98, 48, 52, 53, 48, 130, 2, 34, 48, 13, 6, 9, 42, 134, 72, 134, 247, 13, 1, 1, 1, 5, 0, 3, 130, 2, 15, 0, 48, 130, 2, 10, 2, 130, 2, 1, 0, 175, 182, 199, 130, 43, 177, 167, 1, 236, 43, 180, 46, 139, 204, 84, 22, 99, 171, 239, 152, 47, 50, 199, 127, 117, 49, 3, 12, 151, 82, 75, 27, 95, 232, 9, 251, 199, 42, 169, 69, 31, 116, 60, 189, 154, 111, 19, 53, 116, 74, 165, 94, 119, 246, 182, 172, 53, 53, 238, 23, 194, 94, 99, 149, 23, 221, 156, 146, 230, 55, 74, 83, 203, 254, 37, 143, 143, 251, 182, 253, 18, 147, 120, 162, 42, 76, 169, 156, 69, 45, 71, 165, 159, 50, 1, 244, 65, 151, 202, 28, 205, 126, 118, 47, 178, 245, 49, 81, 182, 254, 178, 255, 253, 43, 111, 228, 254, 91, 198, 189, 158, 195, 75, 254, 8, 35, 157, 170, 252, 235, 142, 181, 168, 237, 43, 58, 205, 156, 94, 58, 119, 144, 225, 181, 20, 66, 121, 49, 89, 133, 152, 17, 173, 158, 178, 169, 107, 189, 215, 165, 124, 147, 169, 28, 65, 252, 205, 39, 214, 127, 214, 246, 113, 170, 11, 129, 82, 97, 173, 56, 79, 163, 121, 68, 134, 70, 4, 221, 179, 216, 196, 249, 32, 161, 155, 22, 86, 194, 241, 74, 214, 208, 60, 86, 236, 6, 8, 153, 4, 28, 30, 209, 165, 254, 109, 52, 64, 181, 86, 186, 209, 208, 161, 82, 88, 156, 83, 229, 93, 55, 7, 98, 240, 18, 46, 239, 145, 134, 27, 27, 14, 108, 76, 128, 146, 116, 153, 192, 233, 190, 192, 184, 62, 59, 193, 249, 60, 114, 192, 73, 96, 75, 189, 47, 19, 69, 230, 44, 63, 142, 38, 219, 236, 6, 201, 71, 102, 243, 193, 40, 35, 157, 79, 67, 18, 250, 216, 18, 56, 135, 224, 107, 236, 245, 103, 88, 59, 248, 53, 90, 129, 254, 234, 186, 249, 154, 131, 200, 223, 62, 42, 50, 42, 252, 103, 43, 241, 32, 177, 53, 21, 139, 104, 33, 206, 175, 48, 155, 110, 238, 119, 249, 136, 51, 176, 24, 218, 161, 14, 69, 31, 6, 163, 116, 213, 7, 129, 243, 89, 8, 41, 102, 187, 119, 139, 147, 8, 148, 38, 152, 231, 78, 11, 205, 36, 98, 138, 1, 194, 204, 3, 229, 31, 11, 62, 91, 74, 193, 228, 223, 158, 175, 159, 246, 164, 146, 167, 124, 20, 131, 136, 40, 133, 1, 91, 66, 44, 230, 123, 128, 184, 140, 155, 72, 225, 59, 96, 122, 181, 69, 199, 35, 255, 140, 68, 248, 242, 211, 104, 185, 246, 82, 13, 49, 20, 94, 191, 158, 134, 42, 215, 29, 246, 163, 191, 210, 69, 9, 89, 214, 83, 116, 13, 151, 161, 47, 54, 139, 19, 239, 102, 213, 208, 165, 74, 110, 47, 93, 154, 111, 239, 68, 104, 50, 188, 103, 132, 71, 37, 134, 31, 9, 61, 208, 230, 243, 64, 93, 168, 150, 67, 239, 15, 77, 105, 182, 66, 0, 81, 253, 185, 48, 73, 103, 62, 54, 149, 5, 128, 211, 205, 244, 251, 208, 139, 197, 132, 131, 149, 38, 0, 99, 2, 3, 1, 0, 1, 163, 99, 48, 97, 48, 29, 6, 3, 85, 29, 14, 4, 22, 4, 20, 54, 97, 225, 0, 124, 136, 5, 9, 81, 139, 68, 108, 71, 255, 26, 76, 201, 234, 79, 18, 48, 31, 6, 3, 85, 29, 35, 4, 24, 48, 22, 128, 20, 54, 97, 225, 0, 124, 136, 5, 9, 81, 139, 68, 108, 71, 255, 26, 76, 201, 234, 79, 18, 48, 15, 6, 3, 85, 29, 19, 1, 1, 255, 4, 5, 48, 3, 1, 1, 255, 48, 14, 6, 3, 85, 29, 15, 1, 1, 255, 4, 4, 3, 2, 2, 4, 48, 13, 6, 9, 42, 134, 72, 134, 247, 13, 1, 1, 11, 5, 0, 3, 130, 2, 1, 0, 124, 112, 202, 147, 150, 81, 220, 241, 79, 170, 10, 179, 165, 131, 113, 251, 215, 190, 37, 153, 160, 172, 110, 143, 219, 39, 64, 181, 236, 145, 32, 48, 182, 248, 146, 250, 234, 177, 118, 108, 211, 85, 55, 152, 31, 234, 0, 24, 63, 214, 222, 79, 119, 144, 14, 68, 112, 17, 179, 88, 97, 168, 98, 2, 91, 249, 202, 49, 171, 249, 239, 135, 253, 173, 147, 120, 60, 45, 153, 150, 231, 198, 93, 190, 236, 33, 210, 105, 26, 35, 189, 114, 212, 97, 136, 187, 152, 186, 92, 181, 208, 151, 28, 81, 145, 132, 30, 145, 210, 96, 205, 134, 182, 72, 24, 109, 150, 218, 234, 91, 2, 61, 128, 0, 63, 205, 220, 200, 53, 126, 213, 163, 164, 77, 253, 81, 10, 159, 229, 51, 67, 202, 190, 108, 88, 55, 93, 17, 98, 194, 186, 223, 88, 235, 149, 225, 157, 113, 217, 49, 161, 34, 191, 254, 100, 144, 110, 7, 22, 158, 96, 4, 102, 188, 199, 160, 93, 127, 210, 11, 40, 212, 118, 96, 34, 125, 24, 47, 53, 97, 45, 32, 63, 137, 112, 151, 225, 4, 246, 135, 114, 121, 207, 124, 231, 150, 226, 134, 214, 123, 252, 53, 7, 113, 122, 45, 131, 32, 136, 64, 73, 103, 238, 243, 78, 2, 3, 222, 156, 64, 164, 211, 149, 166, 158, 217, 252, 30, 169, 120, 221, 55, 95, 239, 218, 122, 142, 134, 120, 13, 203, 61, 119, 235, 89, 133, 154, 190, 23, 153, 162, 135, 252, 139, 83, 192, 231, 187, 216, 210, 61, 101, 204, 18, 214, 85, 90, 10, 251, 8, 145, 48, 194, 17, 119, 102, 246, 176, 141, 60, 6, 53, 210, 36, 238, 156, 129, 197, 93, 24, 126, 236, 163, 243, 148, 113, 158, 192, 42, 191, 241, 51, 168, 132, 20, 103, 211, 243, 77, 126, 30, 238, 70, 201, 78, 73, 159, 241, 41, 179, 125, 180, 192, 109, 195, 126, 217, 241, 221, 175, 190, 117, 234, 253, 133, 157, 178, 109, 126, 36, 181, 112, 159, 172, 152, 15, 252, 154, 112, 210, 65, 151, 10, 93, 118, 86, 188, 121, 165, 76, 142, 193, 122, 156, 25, 200, 129, 3, 159, 247, 50, 146, 123, 78, 167, 73, 58, 175, 131, 5, 7, 162, 200, 14, 16, 38, 73, 103, 81, 46, 205, 177, 248, 202, 204, 27, 183, 77, 173, 42, 210, 132, 22, 28, 126, 191, 227, 147, 129, 239, 244, 233, 95, 163, 26, 202, 147, 88, 187, 31, 172, 224, 141, 46, 224, 60, 31, 239, 179, 250, 149, 4, 54, 106, 106, 158, 113, 232, 189, 162, 56, 238, 0, 190, 76, 218, 100, 129, 129, 164, 144, 20, 250, 7, 249, 191, 83, 77, 65, 184, 224, 65, 79, 56, 72, 148, 193, 25, 171, 218, 164, 13, 107, 140, 217, 192, 57, 145, 110, 85, 220, 82, 84, 113, 241, 231, 195, 82, 29, 96, 136, 54, 91, 24, 59, 200, 119, 16, 101, 233, 133, 66]

/-- Embeds TRUSTED_ROOT_CERTS: the four Google hardware-attestation root
certificates compiled into the library. The include_bytes files are not in
the provided sources; the byte contents come from the base64 equivalents the
source records in comments next to each entry. -/
def TRUSTED_ROOT_CERTS : List Bytes :=
  [trustedRootCert1, trustedRootCert2, trustedRootCert3, trustedRootCert4]

/-- Embeds validate_certificate_chain_root: ChainTooShort on the empty
chain, otherwise UntrustedRoot unless the first certificate is byte-for-byte
a member of the compiled-in trusted root list. -/
def validate_certificate_chain_root (chain : List Bytes) : RustResult Unit :=
  match chain with
  | [] => .err .ChainTooShort
  | first :: _ =>
    if TRUSTED_ROOT_CERTS.contains first then .ok () else .err .UntrustedRoot

/-- Read a definite DER length (after the tag byte), as the rust-asn1 parser
does: short form below 0x80; 0x80 (indefinite) rejected; long form must use
the minimal number of bytes, so the first length byte is nonzero and the
value is at least 0x80. Returns the length and the remaining bytes. -/
def derReadLen : Bytes → Option (Nat × Bytes)
  | [] => none
  | b :: rest =>
    if b < 0x80 then some (b, rest)
    else if b = 0x80 then none
    else
      let k := b - 0x80
      if rest.length < k then none
      else
        let lenBytes := rest.take k
        let n := fromBytesBe lenBytes
        if lenBytes.headD 0 = 0 ∨ n < 0x80 then none
        else some (n, rest.drop k)

/-- Read one DER TLV: tag byte, contents of the announced length, rest. -/
def derReadTlv (d : Bytes) : Option (Nat × Bytes × Bytes) :=
  match d with
  | [] => none
  | tag :: rest =>
    match derReadLen rest with
    | none => none
    | some (len, rest2) =>
      if rest2.length < len then none
      else some (tag, rest2.take len, rest2.drop len)

/-- Two's-complement value of big-endian bytes, as rust-asn1 decodes a DER
INTEGER body. -/
def intFromBeTwos (c : Bytes) : Int :=
  let u : Nat := fromBytesBe c
  if 0x80 ≤ c.headD 0 then (u : Int) - (2 : Int) ^ (8 * c.length) else (u : Int)

/-- Non-minimal INTEGER encodings rejected by rust-asn1: a redundant leading
0x00 before a byte below 0x80, or a redundant 0xff before a byte of 0x80 or
more. -/
def derIntNonMinimal : Bytes → Bool
  | a :: b :: _ => (a = 0 && b < 0x80) || (a = 0xff && 0x80 ≤ b)
  | _ => false

/-- Models rust-asn1 read_element for i64: an INTEGER TLV (tag 0x02) whose
body is non-empty, minimal, and fits in 8 bytes; yields the value and the
unread remainder of the input. -/
def readAsn1I64 (d : Bytes) : Option (Int × Bytes) :=
  match derReadTlv d with
  | none => none
  | some (tag, c, rest) =>
    if tag = 0x02 then
      if c.length = 0 then none
      else if 8 < c.length then none
      else if derIntNonMinimal c then none
      else some (intFromBeTwos c, rest)
    else none

/-- Embeds peek_attestation_version. asn1 parse reads one SEQUENCE element
and then requires the whole input consumed, so a wrong outer tag or trailing
bytes are parse errors (`none`). Inside the sequence the closure stores the
first INTEGER into a cell initialised to 0 and its own result is discarded,
so when the first element is not a valid INTEGER the cell keeps 0 and the
function still succeeds with 0. -/
def peek_attestation_version (data : Bytes) : Option Int :=
  match derReadTlv data with
  | none => none
  | some (tag, contents, rest) =>
    if tag = 0x30 then
      if rest = [] then
        some (match readAsn1I64 contents with
              | some (v, _) => v
              | none => 0)
      else none
    else none

/-- Embeds extract_attestation: find the attestation extension, peek the
version, dispatch to the version-specific schema parser; unknown versions
yield UnsupportedAttestationVersion carrying the peeked integer. -/
def extract_attestation (P : Prims) (extensions : Option (List Extension)) :
    RustResult KeyDescription :=
  match extensions with
  | none => .err .ExtensionMissing
  | some exts =>
    match exts.find? (fun e => e.extn_id == KEY_ATTESTATION_OID) with
    | none => .err .ExtensionMissing
    | some ext =>
      match peek_attestation_version ext.extn_value with
      | none => .err .ParseError
      | some version =>
        if version = 1 then
          match P.parse_kd_v1 ext.extn_value with
          | some parsed => .ok (.V1 parsed)
          | none => .err .ParseError
        else if version = 2 then
          match P.parse_kd_v2 ext.extn_value with
          | some parsed => .ok (.V2 parsed)
          | none => .err .ParseError
        else if version = 3 then
          match P.parse_kd_v3 ext.extn_value with
          | some parsed => .ok (.V3 parsed)
          | none => .err .ParseError
        else if version = 4 then
          match P.parse_kd_v4 ext.extn_value with
          | some parsed => .ok (.V4 parsed)
          | none => .err .ParseError
        else if version = 100 then
          match P.parse_kd_keymint ext.extn_value with
          | some parsed => .ok (.V100 parsed)
          | none => .err .ParseError
        else if version = 200 then
          match P.parse_kd_keymint ext.extn_value with
          | some parsed => .ok (.V200 parsed)
          | none => .err .ParseError
        else if version = 300 then
          match P.parse_kd_keymint ext.extn_value with
          | some parsed => .ok (.V300 parsed)
          | none => .err .ParseError
        else .err (.UnsupportedAttestationVersion version)

/-- Fit a digest to the 32-byte P-256 field size by truncation or left
zero-padding, as the spec describes for the ECDSA-SHA384 with P-256 case. -/
def fitToP256 (h : Bytes) : Bytes :=
  if 32 ≤ h.length then h.take 32 else List.replicate (32 - h.length) 0 ++ h

/-- Spec-side definition for the refutation of one claim, written from the
spec words rather than the source: with a P-256 key under the ECDSA-SHA384
OID, hash the payload with SHA-384, truncate or left-pad the digest to the
P-256 field size, and verify the prehashed value. The source does not do
this; compare validate_ecdsa. -/
def validateSpecSha384P256 (P : Prims) (cert : Certificate) (payload : Bytes)
    (vk : P256VerifyingKey) : RustResult Unit :=
  match P.p256_sig_from_der cert.signature_value with
  | none => .err .InvalidSignatureEncoding
  | some s =>
    if P.p256_verify_prehash vk (fitToP256 (P.sha384 payload)) s then .ok ()
    else .err .InvalidSignature


/-- A fixed parsed certificate used by the concrete witness instantiation:
an ECDSA P-256 certificate whose inner and outer signature algorithms agree. -/
def testCert : Certificate :=
  { tbs_certificate :=
      { serial_number := [1]
        signature := { algorithm := ECDSA_WITH_SHA256_ALGORITHM, parameters := none }
        issuer := [5]
        subject_public_key_info :=
          { algorithm := { algorithm := ECDSA_PBK, parameters := some [0] }
            subject_public_key := [4, 1, 2] }
        extensions := none }
    signature_algorithm := { algorithm := ECDSA_WITH_SHA256_ALGORITHM, parameters := none }
    signature_value := [9] }

/-- A simple concrete instantiation of the external primitives for the
witnesses: every certificate parses to testCert, digests are constant with
the true SHA-256 and SHA-384 output lengths, and P-256 verification always
succeeds. -/
def TestPrims : Prims :=
  { sha256 := fun _ => List.replicate 32 0
    sha384 := fun _ => List.replicate 48 0
    parse_cert := fun _ => some testCert
    parse_cert_payload := fun b => some b
    write_name := fun n => some n
    parse_rsa_public_key := fun _ => none
    parse_oid := fun _ => some CURVE_P256
    p256_from_sec1 := fun b => some b
    fe_from_be_slice := fun b => some b
    p256_sig_from_der := fun b => some b
    p384_sig_from_der := fun _ => none
    p256_verify_prehash := fun _ _ _ => true
    p384_verify_prehashed := fun _ _ _ => false
    parse_kd_v1 := fun b => some b
    parse_kd_v2 := fun b => some b
    parse_kd_v3 := fun b => some b
    parse_kd_v4 := fun b => some b
    parse_kd_keymint := fun b => some b }

/-- A two-certificate chain accepted under TestPrims. -/
def testChain : List Bytes := [[0], [1]]

/-- The value validate_certificate_chain returns on testChain under
TestPrims. -/
def testChainRes : List CertificateId × TBSCertificate × PublicKey :=
  ([([5], [1]), ([5], [1])], testCert.tbs_certificate, .ECDSA (.CurveP256 [4, 1, 2]))

/-- Primitive instantiation for the ECDSA-SHA384 with P-256 refutation: the
two digests have disjoint images and the prehash verifier accepts exactly
the SHA-256 image. -/
def CexPrims : Prims :=
  { TestPrims with
    sha256 := fun _ => List.replicate 32 7
    sha384 := fun _ => List.replicate 48 9
    p256_verify_prehash := fun _ d _ => d == List.replicate 32 7 }

/-- A certificate whose inner and outer signature algorithm is
ECDSA-SHA384, for the digest-choice refutation. -/
def cexCert : Certificate :=
  { testCert with
    signature_algorithm := { algorithm := ECDSA_WITH_SHA384_ALGORITHM, parameters := none }
    tbs_certificate :=
      { testCert.tbs_certificate with
        signature := { algorithm := ECDSA_WITH_SHA384_ALGORITHM, parameters := none } } }


/-- The key k is the subject public key the validator extracts from the
certificate bytes c. -/
def ownPbk (P : Prims) (c : Bytes) (k : PublicKey) : Prop :=
  ∃ cert, P.parse_cert c = some cert ∧
    PublicKey.parse P cert.tbs_certificate.subject_public_key_info = .ok k

/-- The certificate bytes c parse, and their signature verifies under the
key k via the validate dispatcher. -/
def verifiedWith (P : Prims) (k : PublicKey) (c : Bytes) : Prop :=
  ∃ cert payload, P.parse_cert c = some cert ∧ P.parse_cert_payload c = some payload ∧
    validate P cert payload k = .ok ()

/-- The id u is the unique_id of the certificate bytes c: the DER encoding
of its issuer paired with its big-endian serial-number bytes. -/
def certUid (P : Prims) (c : Bytes) (u : CertificateId) : Prop :=
  ∃ cert enc, P.parse_cert c = some cert ∧
    P.write_name cert.tbs_certificate.issuer = some enc ∧
    u = (enc, cert.tbs_certificate.serial_number)

theorem chainStep_ok_iff {P : Prims} {acc : FoldState} {c : Bytes} {acc2 : FoldState} :
    chainStep P acc c = .ok acc2 ↔
    ∃ cert payload pbk uid,
      P.parse_cert c = some cert ∧
      P.parse_cert_payload c = some payload ∧
      PublicKey.parse P cert.tbs_certificate.subject_public_key_info = .ok pbk ∧
      validate P cert payload (acc.2.1.getD pbk) = .ok () ∧
      unique_id P cert.tbs_certificate.issuer cert.tbs_certificate.serial_number = .ok uid ∧
      acc2 = (acc.1 ++ [uid], some pbk, some cert) := by
  constructor
  · intro h
    unfold chainStep at h
    cases h1 : P.parse_cert c with
    | none => simp only [h1] at h; exact RustResult.noConfusion h
    | some cert =>
      simp only [h1] at h
      cases h2 : P.parse_cert_payload c with
      | none => simp only [h2] at h; exact RustResult.noConfusion h
      | some payload =>
        simp only [h2] at h
        cases h3 : PublicKey.parse P cert.tbs_certificate.subject_public_key_info with
        | panic => simp only [h3] at h; exact RustResult.noConfusion h
        | err e => simp only [h3] at h; exact RustResult.noConfusion h
        | ok pbk =>
          simp only [h3] at h
          cases h4 : validate P cert payload (acc.2.1.getD pbk) with
          | panic => simp only [h4] at h; exact RustResult.noConfusion h
          | err e => simp only [h4] at h; exact RustResult.noConfusion h
          | ok u =>
            simp only [h4] at h
            cases h5 : unique_id P cert.tbs_certificate.issuer
                cert.tbs_certificate.serial_number with
            | panic => simp only [h5] at h; exact RustResult.noConfusion h
            | err e => simp only [h5] at h; exact RustResult.noConfusion h
            | ok uid =>
              simp only [h5] at h
              cases u
              exact ⟨cert, payload, pbk, uid, rfl, rfl, h3, h4, h5,
                (RustResult.ok.inj h).symm⟩
  · rintro ⟨cert, payload, pbk, uid, h1, h2, h3, h4, h5, rfl⟩
    simp only [chainStep, h1, h2, h3, h4, h5]

theorem chainFold_nil {P : Prims} {acc : FoldState} : chainFold P acc [] = .ok acc := rfl

theorem chainFold_cons_ok {P : Prims} {acc : FoldState} {c : Bytes} {rest : List Bytes}
    {res : FoldState} :
    chainFold P acc (c :: rest) = .ok res ↔
    ∃ acc2, chainStep P acc c = .ok acc2 ∧ chainFold P acc2 rest = .ok res := by
  cases h : chainStep P acc c <;> simp [chainFold, h]

/-- Core invariant behind the chain-walk claims: whenever the fold accepts
the list l from accumulator acc, every element of l was verified, the first
one against the threaded previous key (or its own key when acc carries
none), and every element at index i + 1 against the subject key of the
element at index i. -/
theorem chainFold_verified (P : Prims) :
    ∀ (l : List Bytes) (acc res : FoldState), chainFold P acc l = .ok res →
      ∀ i c, l.get? i = some c →
        ∃ k, verifiedWith P k c ∧
          (match i with
           | 0 =>
             (match acc.2.1 with
              | some pk => k = pk
              | none => ownPbk P c k)
           | j + 1 => ∃ cp, l.get? j = some cp ∧ ownPbk P cp k) := by
  intro l
  induction l with
  | nil => intro acc res h i c hc; simp at hc
  | cons c0 rest ih =>
    intro acc res h i c hc
    obtain ⟨acc2, hstep, hfold⟩ := chainFold_cons_ok.mp h
    obtain ⟨cert, payload, pbk, uid, h1, h2, h3, h4, h5, hacc2⟩ := chainStep_ok_iff.mp hstep
    cases i with
    | zero =>
      simp only [List.get?_cons_zero, Option.some.injEq] at hc
      subst hc
      refine ⟨acc.2.1.getD pbk, ⟨cert, payload, h1, h2, h4⟩, ?_⟩
      cases hval : acc.2.1 with
      | some pk => simp
      | none =>
        simp only [hval, Option.getD_none]
        exact ⟨cert, h1, h3⟩
    | succ j =>
      simp only [List.get?_cons_succ] at hc
      obtain ⟨k, hkv, hkp⟩ := ih acc2 res hfold j c hc
      refine ⟨k, hkv, ?_⟩
      cases j with
      | zero =>
        subst hacc2
        simp only at hkp
        subst hkp
        exact ⟨c0, rfl, cert, h1, h3⟩
      | succ j2 =>
        obtain ⟨cp, hcp1, hcp2⟩ := hkp
        exact ⟨cp, by simpa using hcp1, hcp2⟩


/-- The id list grows by exactly one certUid entry per input certificate,
in input order. -/
theorem chainFold_ids (P : Prims) :
    ∀ (l : List Bytes) (acc res : FoldState), chainFold P acc l = .ok res →
      ∃ us, res.1 = acc.1 ++ us ∧ List.Forall₂ (certUid P) l us := by
  intro l
  induction l with
  | nil =>
    intro acc res h
    rw [chainFold_nil] at h
    obtain rfl := RustResult.ok.inj h
    exact ⟨[], by simp, List.Forall₂.nil⟩
  | cons c0 rest ih =>
    intro acc res h
    obtain ⟨acc2, hstep, hfold⟩ := chainFold_cons_ok.mp h
    obtain ⟨cert, payload, pbk, uid, h1, h2, h3, h4, h5, hacc2⟩ := chainStep_ok_iff.mp hstep
    obtain ⟨us, hres, hfa⟩ := ih acc2 res hfold
    subst hacc2
    refine ⟨uid :: us, ?_, ?_⟩
    · rw [hres]; simp
    · refine List.Forall₂.cons ?_ hfa
      unfold unique_id at h5
      cases h6 : P.write_name cert.tbs_certificate.issuer with
      | none => simp only [h6] at h5; exact RustResult.noConfusion h5
      | some enc =>
        simp only [h6] at h5
        exact ⟨cert, enc, h1, h6, (RustResult.ok.inj h5).symm⟩

theorem validate_rsa_ne_mpk (P : Prims) (payload sigval : Bytes) (pbk : RSAPbk) :
    validate_rsa P payload sigval pbk ≠ .err .MissingPublicKey := by
  intro hc
  unfold validate_rsa at hc
  dsimp only [] at hc
  repeat' split at hc
  all_goals first
    | exact RustResult.noConfusion hc
    | simp at hc

theorem validate_ecdsa_ne_mpk (P : Prims) (D : HashAlg) (payload sigval : Bytes)
    (curve : ECDSACurve) :
    validate_ecdsa P D payload sigval curve ≠ .err .MissingPublicKey := by
  intro hc
  unfold validate_ecdsa at hc
  dsimp only [] at hc
  repeat' split at hc
  all_goals first
    | exact RustResult.noConfusion hc
    | simp at hc

theorem pk_parse_ne_mpk (P : Prims) (info : SubjectPublicKeyInfo) :
    PublicKey.parse P info ≠ .err .MissingPublicKey := by
  intro hc
  unfold PublicKey.parse at hc
  dsimp only [] at hc
  repeat' split at hc
  all_goals first
    | exact RustResult.noConfusion hc
    | simp at hc

theorem validate_ne_mpk (P : Prims) (cert : Certificate) (payload : Bytes) (k : PublicKey) :
    validate P cert payload k ≠ .err .MissingPublicKey := by
  intro hc
  unfold validate at hc
  repeat' split at hc
  all_goals simp_all [validate_rsa_ne_mpk, validate_ecdsa_ne_mpk]

theorem unique_id_ne_mpk (P : Prims) (issuer : Name) (serial_number : Bytes) :
    unique_id P issuer serial_number ≠ .err .MissingPublicKey := by
  intro hc
  unfold unique_id at hc
  repeat' split at hc
  all_goals simp_all

theorem chainStep_ne_mpk (P : Prims) (acc : FoldState) (c : Bytes) :
    chainStep P acc c ≠ .err .MissingPublicKey := by
  intro hc
  unfold chainStep at hc
  repeat' split at hc
  all_goals simp_all [pk_parse_ne_mpk, validate_ne_mpk, unique_id_ne_mpk]

theorem chainFold_ne_mpk (P : Prims) :
    ∀ (l : List Bytes) (acc : FoldState), chainFold P acc l ≠ .err .MissingPublicKey := by
  intro l
  induction l with
  | nil => intro acc hc; simp [chainFold] at hc
  | cons c rest ih =>
    intro acc hc
    unfold chainFold at hc
    split at hc
    · simp_all
    · simp_all [chainStep_ne_mpk]
    · rename_i acc2 heq
      exact ih acc2 hc

/-- A non-empty accepted fold ends with both a last key and a last
certificate recorded. -/
theorem chainFold_some (P : Prims) :
    ∀ (l : List Bytes) (acc res : FoldState), l ≠ [] → chainFold P acc l = .ok res →
      (∃ pk, res.2.1 = some pk) ∧ (∃ ct, res.2.2 = some ct) := by
  intro l
  induction l with
  | nil => intro acc res hne; exact absurd rfl hne
  | cons c rest ih =>
    intro acc res hne h
    obtain ⟨acc2, hstep, hfold⟩ := chainFold_cons_ok.mp h
    obtain ⟨cert, payload, pbk, uid, h1, h2, h3, h4, h5, hacc2⟩ := chainStep_ok_iff.mp hstep
    cases rest with
    | nil =>
      rw [chainFold_nil] at hfold
      obtain rfl := RustResult.ok.inj hfold
      subst hacc2
      exact ⟨⟨pbk, rfl⟩, ⟨cert, rfl⟩⟩
    | cons c2 rest2 => exact ih acc2 res (by simp) hfold


/-- C1: for every chain accepted by validate_certificate_chain, the first
certificate verifies against its own subject public key (self-signed), and
every certificate at index i + 1 verifies against the public key extracted
from the certificate at index i: the verifier key for a non-first
certificate is the threaded predecessor key, never the certificate own
subject key. -/
theorem chain_verifier_is_predecessor (P : Prims) (chain : List Bytes)
    (res : List CertificateId × TBSCertificate × PublicKey)
    (h : validate_certificate_chain P chain = .ok res) :
    (∀ c0, chain.get? 0 = some c0 → ∃ k, ownPbk P c0 k ∧ verifiedWith P k c0) ∧
    (∀ i c, chain.get? (i + 1) = some c →
        ∃ cp k, chain.get? i = some cp ∧ ownPbk P cp k ∧ verifiedWith P k c) := by
  have hf : ∃ acc, chainFold P ([], none, none) chain = .ok acc := by
    unfold validate_certificate_chain at h
    cases hf2 : chainFold P ([], none, none) chain with
    | panic => simp only [hf2] at h; exact RustResult.noConfusion h
    | err e => simp only [hf2] at h; exact RustResult.noConfusion h
    | ok acc => exact ⟨acc, rfl⟩
  obtain ⟨acc, hf⟩ := hf
  constructor
  · intro c0 hc0
    obtain ⟨k, hv, hm⟩ := chainFold_verified P chain ([], none, none) acc hf 0 c0 hc0
    exact ⟨k, hm, hv⟩
  · intro i c hic
    obtain ⟨k, hv, hm⟩ := chainFold_verified P chain ([], none, none) acc hf (i + 1) c hic
    obtain ⟨cp, h1, h2⟩ := hm
    exact ⟨cp, k, h1, h2, hv⟩

/-- C1 witness: the theorem applied to the concrete two-certificate chain
accepted under the TestPrims instantiation. -/
theorem chain_verifier_is_predecessor_witness :
    validate_certificate_chain TestPrims testChain = .ok testChainRes ∧
    ((∀ c0, testChain.get? 0 = some c0 →
        ∃ k, ownPbk TestPrims c0 k ∧ verifiedWith TestPrims k c0) ∧
     (∀ i c, testChain.get? (i + 1) = some c →
        ∃ cp k, testChain.get? i = some cp ∧ ownPbk TestPrims cp k ∧
          verifiedWith TestPrims k c)) :=
  ⟨rfl, chain_verifier_is_predecessor TestPrims testChain testChainRes rfl⟩

/-- C6: for every accepted chain the returned CertificateId list pairs with
the input chain elementwise in order: exactly one entry per certificate,
each entry the DER encoding of the issuer Name with the big-endian bytes of
the serial number (List.Forall₂ also forces equal lengths). -/
theorem chain_ids_one_per_cert (P : Prims) (chain : List Bytes)
    (ids : List CertificateId) (tbs : TBSCertificate) (pbk : PublicKey)
    (h : validate_certificate_chain P chain = .ok (ids, tbs, pbk)) :
    List.Forall₂ (certUid P) chain ids := by
  unfold validate_certificate_chain at h
  cases hf : chainFold P ([], none, none) chain with
  | panic => simp only [hf] at h; exact RustResult.noConfusion h
  | err e => simp only [hf] at h; exact RustResult.noConfusion h
  | ok acc =>
    simp only [hf] at h
    obtain ⟨is2, opbk, ocert⟩ := acc
    cases ocert with
    | none => simp at h
    | some last_cert =>
      cases opbk with
      | none => simp at h
      | some last_pbk =>
        simp only [RustResult.ok.injEq, Prod.mk.injEq] at h
        obtain ⟨rfl, -, -⟩ := h
        obtain ⟨us, hres, hfa⟩ := chainFold_ids P chain _ _ hf
        simp only [List.nil_append] at hres
        rw [hres]
        exact hfa

/-- C6 witness: the theorem applied to the concrete accepted chain. -/
theorem chain_ids_one_per_cert_witness :
    validate_certificate_chain TestPrims testChain =
      .ok ([([5], [1]), ([5], [1])], testCert.tbs_certificate,
        .ECDSA (.CurveP256 [4, 1, 2])) ∧
    List.Forall₂ (certUid TestPrims) testChain [([5], [1]), ([5], [1])] :=
  ⟨rfl, chain_ids_one_per_cert TestPrims testChain [([5], [1]), ([5], [1])]
    testCert.tbs_certificate (.ECDSA (.CurveP256 [4, 1, 2])) rfl⟩

/-- C8: on a non-empty chain validate_certificate_chain never returns
MissingPublicKey: when the fold completes over at least one certificate the
threaded public-key option is some, and no component of the walk produces
that error, so the defensive branch is unreachable. -/
theorem no_missing_public_key (P : Prims) (chain : List Bytes) (hne : chain ≠ []) :
    validate_certificate_chain P chain ≠ .err .MissingPublicKey := by
  intro hc
  unfold validate_certificate_chain at hc
  cases hf : chainFold P ([], none, none) chain with
  | panic => simp only [hf] at hc; exact RustResult.noConfusion hc
  | err e =>
    simp only [hf] at hc
    simp only [RustResult.err.injEq] at hc
    exact chainFold_ne_mpk P chain ([], none, none) (hc ▸ hf)
  | ok acc =>
    simp only [hf] at hc
    obtain ⟨is2, opbk, ocert⟩ := acc
    obtain ⟨⟨pk, hpk⟩, ⟨ct, hct⟩⟩ := chainFold_some P chain ([], none, none) _ hne hf
    simp only at hpk hct
    subst hpk
    subst hct
    simp at hc

/-- C8 witness: the theorem applied to a concrete non-empty chain. -/
theorem no_missing_public_key_witness :
    testChain ≠ [] ∧
    validate_certificate_chain TestPrims testChain ≠ .err .MissingPublicKey :=
  ⟨by simp [testChain], no_missing_public_key TestPrims testChain (by simp [testChain])⟩


/-- C3: validate_certificate_chain_root returns ChainTooShort on the empty
chain, succeeds exactly when the first certificate is byte-for-byte equal to
one of the compiled-in trusted roots, returns UntrustedRoot otherwise, and
the trusted-root list has exactly four entries. No issuer or subject is
inspected and no signature is checked: the result depends only on this byte
membership test. -/
theorem root_check_byte_identity :
    validate_certificate_chain_root [] = .err .ChainTooShort ∧
    (∀ first rest, validate_certificate_chain_root (first :: rest) = .ok () ↔
        first ∈ TRUSTED_ROOT_CERTS) ∧
    (∀ first rest, first ∉ TRUSTED_ROOT_CERTS →
        validate_certificate_chain_root (first :: rest) = .err .UntrustedRoot) ∧
    TRUSTED_ROOT_CERTS.length = 4 := by
  refine ⟨rfl, ?_, ?_, rfl⟩
  · intro first rest
    by_cases hm : first ∈ TRUSTED_ROOT_CERTS
    · simp [validate_certificate_chain_root, List.contains, List.elem_iff, hm]
    · simp [validate_certificate_chain_root, List.contains, List.elem_iff, hm]
  · intro first rest hm
    simp [validate_certificate_chain_root, List.contains, List.elem_iff, hm]

/-- C3 witness: the theorem applied to a chain headed by the first trusted
root and to a chain headed by bytes outside the trusted set. -/
theorem root_check_byte_identity_witness :
    trustedRootCert1 ∈ TRUSTED_ROOT_CERTS ∧
    validate_certificate_chain_root [trustedRootCert1] = .ok () ∧
    ([42] : Bytes) ∉ TRUSTED_ROOT_CERTS ∧
    validate_certificate_chain_root [[42]] = .err .UntrustedRoot := by
  have hmem : trustedRootCert1 ∈ TRUSTED_ROOT_CERTS := by simp [TRUSTED_ROOT_CERTS]
  have hnot : ([42] : Bytes) ∉ TRUSTED_ROOT_CERTS := by decide
  exact ⟨hmem, (root_check_byte_identity.2.1 trustedRootCert1 []).mpr hmem,
    hnot, root_check_byte_identity.2.2.1 [42] [] hnot⟩

/-- C4: extract_attestation reports ExtensionMissing when the extension list
is absent or has no entry with the attestation OID; with such an entry it
peeks the version and, for each supported version, parses the value against
the matching schema and wraps it in the corresponding KeyDescription
variant (ParseError when that parse fails); any other version integer v
yields UnsupportedAttestationVersion v. -/
theorem extract_attestation_dispatch (P : Prims) :
    (extract_attestation P none = .err .ExtensionMissing) ∧
    (∀ exts, exts.find? (fun e => e.extn_id == KEY_ATTESTATION_OID) = none →
        extract_attestation P (some exts) = .err .ExtensionMissing) ∧
    (∀ exts ext, exts.find? (fun e => e.extn_id == KEY_ATTESTATION_OID) = some ext →
      (peek_attestation_version ext.extn_value = none →
          extract_attestation P (some exts) = .err .ParseError) ∧
      (∀ v, peek_attestation_version ext.extn_value = some v →
        (v = 1 → extract_attestation P (some exts) =
            (match P.parse_kd_v1 ext.extn_value with
             | some d => .ok (.V1 d)
             | none => .err .ParseError)) ∧
        (v = 2 → extract_attestation P (some exts) =
            (match P.parse_kd_v2 ext.extn_value with
             | some d => .ok (.V2 d)
             | none => .err .ParseError)) ∧
        (v = 3 → extract_attestation P (some exts) =
            (match P.parse_kd_v3 ext.extn_value with
             | some d => .ok (.V3 d)
             | none => .err .ParseError)) ∧
        (v = 4 → extract_attestation P (some exts) =
            (match P.parse_kd_v4 ext.extn_value with
             | some d => .ok (.V4 d)
             | none => .err .ParseError)) ∧
        (v = 100 → extract_attestation P (some exts) =
            (match P.parse_kd_keymint ext.extn_value with
             | some d => .ok (.V100 d)
             | none => .err .ParseError)) ∧
        (v = 200 → extract_attestation P (some exts) =
            (match P.parse_kd_keymint ext.extn_value with
             | some d => .ok (.V200 d)
             | none => .err .ParseError)) ∧
        (v = 300 → extract_attestation P (some exts) =
            (match P.parse_kd_keymint ext.extn_value with
             | some d => .ok (.V300 d)
             | none => .err .ParseError)) ∧
        (v ∉ ([1, 2, 3, 4, 100, 200, 300] : List Int) →
            extract_attestation P (some exts) =
              .err (.UnsupportedAttestationVersion v)))) := by
  refine ⟨rfl, ?_, ?_⟩
  · intro exts hfind
    simp only [extract_attestation, hfind]
  · intro exts ext hfind
    constructor
    · intro hpeek
      simp only [extract_attestation, hfind, hpeek]
    · intro v hpeek
      refine ⟨?_, ?_, ?_, ?_, ?_, ?_, ?_, ?_⟩
      · rintro rfl; simp only [extract_attestation, hfind, hpeek]; norm_num
      · rintro rfl; simp only [extract_attestation, hfind, hpeek]; norm_num
      · rintro rfl; simp only [extract_attestation, hfind, hpeek]; norm_num
      · rintro rfl; simp only [extract_attestation, hfind, hpeek]; norm_num
      · rintro rfl; simp only [extract_attestation, hfind, hpeek]; norm_num
      · rintro rfl; simp only [extract_attestation, hfind, hpeek]; norm_num
      · rintro rfl; simp only [extract_attestation, hfind, hpeek]; norm_num
      · intro hv
        simp only [List.mem_cons, not_or] at hv
        obtain ⟨h1, h2, h3, h4, h5, h6, h7, -⟩ := hv
        simp only [extract_attestation, hfind, hpeek, if_neg h1, if_neg h2, if_neg h3,
          if_neg h4, if_neg h5, if_neg h6, if_neg h7]

/-- C4 witness: concrete dispatches through the theorem, one per kind of
outcome: missing extensions, a version 1 value parsed as V1, and the unknown
version 5 reported with its integer. -/
theorem extract_attestation_dispatch_witness :
    extract_attestation TestPrims none = .err .ExtensionMissing ∧
    extract_attestation TestPrims
        (some [⟨KEY_ATTESTATION_OID, [0x30, 3, 2, 1, 1]⟩]) = .ok (.V1 [0x30, 3, 2, 1, 1]) ∧
    extract_attestation TestPrims
        (some [⟨KEY_ATTESTATION_OID, [0x30, 3, 2, 1, 5]⟩]) =
      .err (.UnsupportedAttestationVersion 5) := by
  refine ⟨(extract_attestation_dispatch TestPrims).1, ?_, ?_⟩
  · exact ((((extract_attestation_dispatch TestPrims).2.2
      [⟨KEY_ATTESTATION_OID, [0x30, 3, 2, 1, 1]⟩] ⟨KEY_ATTESTATION_OID, [0x30, 3, 2, 1, 1]⟩
      rfl).2 1 rfl).1 rfl).trans rfl
  · exact (((extract_attestation_dispatch TestPrims).2.2
      [⟨KEY_ATTESTATION_OID, [0x30, 3, 2, 1, 5]⟩] ⟨KEY_ATTESTATION_OID, [0x30, 3, 2, 1, 5]⟩
      rfl).2 5 rfl).2.2.2.2.2.2.2 (by decide)

/-- C9: on the DER input 30 02 04 00, a SEQUENCE whose first element is an
OCTET STRING rather than an INTEGER, peek_attestation_version discards the
failed inner read and succeeds with the initial cell value 0; consequently
extract_attestation on an attestation extension carrying that value returns
UnsupportedAttestationVersion 0 instead of a parse error, whatever the
external parsers do. -/
theorem peek_version_zero_default :
    peek_attestation_version [0x30, 2, 4, 0] = some 0 ∧
    ∀ P : Prims, extract_attestation P (some [⟨KEY_ATTESTATION_OID, [0x30, 2, 4, 0]⟩]) =
      .err (.UnsupportedAttestationVersion 0) :=
  ⟨rfl, fun _ => rfl⟩


/-- C5: RSA-SHA256 verification computes s^e mod n with the signature bytes
read as a big-endian integer, and succeeds exactly when the last 32 bytes of
the big-endian encoding of that power equal the SHA-256 digest of the
payload; on mismatch it returns InvalidSignature. No DigestInfo or PKCS
padding is inspected: this byte comparison is the entire check. Stated under
the conditions that keep the slice well defined (nonzero modulus, encoding
no shorter than the digest); the underflow case is a separate claim. -/
theorem validate_rsa_last_bytes (P : Prims) (payload sigval : Bytes) (pbk : RSAPbk)
    (hn : pbk.modulus ≠ 0)
    (h32 : (P.sha256 payload).length = 32)
    (hlen : 32 ≤ (to_bytes_be (fromBytesBe sigval ^ pbk.exponent % pbk.modulus)).length) :
    (validate_rsa P payload sigval pbk = .ok () ↔
      (to_bytes_be (fromBytesBe sigval ^ pbk.exponent % pbk.modulus)).drop
        ((to_bytes_be (fromBytesBe sigval ^ pbk.exponent % pbk.modulus)).length - 32) =
        P.sha256 payload) ∧
    ((to_bytes_be (fromBytesBe sigval ^ pbk.exponent % pbk.modulus)).drop
        ((to_bytes_be (fromBytesBe sigval ^ pbk.exponent % pbk.modulus)).length - 32) ≠
        P.sha256 payload →
      validate_rsa P payload sigval pbk = .err .InvalidSignature) := by
  unfold validate_rsa
  rw [if_neg hn]
  dsimp only []
  rw [h32]
  rw [if_neg (Nat.not_lt.mpr hlen)]
  by_cases heq : P.sha256 payload =
      (to_bytes_be (fromBytesBe sigval ^ pbk.exponent % pbk.modulus)).drop
        ((to_bytes_be (fromBytesBe sigval ^ pbk.exponent % pbk.modulus)).length - 32)
  · simp [heq]
  · simp [heq, Ne.symm heq]

/-- C5 witness: signature bytes encoding 2 to the 248, exponent 1 and
modulus 2 to the 250; the encoded power has exactly 32 bytes and the
comparison is decided concretely through the theorem. -/
theorem validate_rsa_last_bytes_witness :
    ((⟨1, 2 ^ 250⟩ : RSAPbk).modulus ≠ 0) ∧
    (TestPrims.sha256 []).length = 32 ∧
    32 ≤ (to_bytes_be (fromBytesBe (1 :: List.replicate 31 0) ^
      (⟨1, 2 ^ 250⟩ : RSAPbk).exponent % (⟨1, 2 ^ 250⟩ : RSAPbk).modulus)).length ∧
    (validate_rsa TestPrims [] (1 :: List.replicate 31 0) ⟨1, 2 ^ 250⟩ = .ok () ↔
      (to_bytes_be (fromBytesBe (1 :: List.replicate 31 0) ^
          (⟨1, 2 ^ 250⟩ : RSAPbk).exponent % (⟨1, 2 ^ 250⟩ : RSAPbk).modulus)).drop
        ((to_bytes_be (fromBytesBe (1 :: List.replicate 31 0) ^
            (⟨1, 2 ^ 250⟩ : RSAPbk).exponent % (⟨1, 2 ^ 250⟩ : RSAPbk).modulus)).length - 32) =
        TestPrims.sha256 []) :=
  ⟨by decide, rfl, by decide,
    (validate_rsa_last_bytes TestPrims [] (1 :: List.replicate 31 0) ⟨1, 2 ^ 250⟩
      (by decide) rfl (by decide)).1⟩

/-- C10: validate_rsa is not total: whenever the minimal big-endian encoding
of s^e mod n is shorter than the digest, the index computation of the slice
computed[computed.len() - hashed.len()..] underflows and the code panics
instead of returning a ValidationError. -/
theorem validate_rsa_underflow_panic (P : Prims) (payload sigval : Bytes) (pbk : RSAPbk)
    (hn : pbk.modulus ≠ 0)
    (hshort : (to_bytes_be (fromBytesBe sigval ^ pbk.exponent % pbk.modulus)).length <
      (P.sha256 payload).length) :
    validate_rsa P payload sigval pbk = .panic := by
  unfold validate_rsa
  rw [if_neg hn]
  dsimp only []
  rw [if_pos hshort]

/-- C10 witness: with public key (e, n) = (1, 2) and the single signature
byte 1 the modular power is 1, a one-byte encoding, shorter than the 32-byte
SHA-256 digest, and validate_rsa panics. -/
theorem validate_rsa_underflow_panic_witness :
    ((⟨1, 2⟩ : RSAPbk).modulus ≠ 0) ∧
    (to_bytes_be (fromBytesBe [1] ^ (⟨1, 2⟩ : RSAPbk).exponent %
        (⟨1, 2⟩ : RSAPbk).modulus)).length < (TestPrims.sha256 []).length ∧
    validate_rsa TestPrims [] [1] ⟨1, 2⟩ = .panic :=
  ⟨by decide, by decide,
    validate_rsa_underflow_panic TestPrims [] [1] ⟨1, 2⟩ (by decide) (by decide)⟩

/-- C7: under the ECDSA-SHA256 OID with a P-384 key, verification decodes
the signature from DER (InvalidSignatureEncoding on failure), hashes the
payload with SHA-256, left-pads the 32-byte digest with 16 zero bytes into a
48-byte field element and verifies it prehashed against the affine point
(InvalidSignature on failure). -/
theorem ecdsa_sha256_p384_pads_digest (P : Prims) (cert : Certificate) (payload : Bytes)
    (pt : P384AffinePoint)
    (houter : cert.signature_algorithm.algorithm = ECDSA_WITH_SHA256_ALGORITHM)
    (hinner : cert.tbs_certificate.signature.algorithm = ECDSA_WITH_SHA256_ALGORITHM)
    (h32 : (P.sha256 payload).length = 32) :
    validate P cert payload (.ECDSA (.CurveP384 pt)) =
      (match P.p384_sig_from_der cert.signature_value with
       | none => .err .InvalidSignatureEncoding
       | some s =>
         if P.p384_verify_prehashed pt (List.replicate 16 0 ++ P.sha256 payload) s then .ok ()
         else .err .InvalidSignature) := by
  unfold validate
  rw [houter, hinner]
  rw [if_neg (by simp), if_neg (by decide), if_pos rfl]
  dsimp only []
  unfold validate_ecdsa
  cases hs : P.p384_sig_from_der cert.signature_value with
  | none => simp [hs]
  | some s => simp [hs, Prims.digest, h32]

/-- C7 witness: the theorem applied to the concrete TestPrims certificate
and a concrete affine point; the DER decode fails there, so the equation
instantiates to the InvalidSignatureEncoding branch. -/
theorem ecdsa_sha256_p384_pads_digest_witness :
    testCert.signature_algorithm.algorithm = ECDSA_WITH_SHA256_ALGORITHM ∧
    (TestPrims.sha256 []).length = 32 ∧
    validate TestPrims testCert [] (.ECDSA (.CurveP384 ⟨[1], [2], 0⟩)) =
      (match TestPrims.p384_sig_from_der testCert.signature_value with
       | none => .err .InvalidSignatureEncoding
       | some s =>
         if TestPrims.p384_verify_prehashed ⟨[1], [2], 0⟩
             (List.replicate 16 0 ++ TestPrims.sha256 []) s then .ok ()
         else .err .InvalidSignature) :=
  ⟨rfl, rfl, ecdsa_sha256_p384_pads_digest TestPrims testCert [] ⟨[1], [2], 0⟩ rfl rfl rfl⟩

/-- C2 counterexample: a concrete certificate under the ECDSA-SHA384 OID
with a P-256 key that the code accepts although the claimed procedure
(verify the truncated or zero-padded SHA-384 digest of the payload) rejects
it: the code feeds the SHA-256 digest of the payload to the P-256 verifier
and never computes a SHA-384 digest in this arm. -/
theorem sha384_p256_digest_counterexample :
    cexCert.signature_algorithm.algorithm = ECDSA_WITH_SHA384_ALGORITHM ∧
    validate CexPrims cexCert [] (.ECDSA (.CurveP256 [0])) = .ok () ∧
    validateSpecSha384P256 CexPrims cexCert [] [0] = .err .InvalidSignature ∧
    CexPrims.sha256 [] ≠ fitToP256 (CexPrims.sha384 []) :=
  ⟨rfl, by decide, by decide, by decide⟩

/-- C2 amended: under the ECDSA-SHA384 OID with a P-256 key the digest
selection is ignored: the code runs the standard P-256 verify, which hashes
the raw payload with SHA-256, exactly as under the ECDSA-SHA256 OID; no
SHA-384 digest and no truncation or padding take part. -/
theorem sha384_p256_uses_sha256 (P : Prims) (cert : Certificate) (payload : Bytes)
    (vk : P256VerifyingKey)
    (houter : cert.signature_algorithm.algorithm = ECDSA_WITH_SHA384_ALGORITHM)
    (hinner : cert.tbs_certificate.signature.algorithm = ECDSA_WITH_SHA384_ALGORITHM) :
    validate P cert payload (.ECDSA (.CurveP256 vk)) =
      (match P.p256_sig_from_der cert.signature_value with
       | none => .err .InvalidSignatureEncoding
       | some s =>
         if P.p256_verify_prehash vk (P.sha256 payload) s then .ok ()
         else .err .InvalidSignature) := by
  unfold validate
  rw [houter, hinner]
  rw [if_neg (by simp), if_neg (by decide), if_neg (by decide), if_pos rfl]
  dsimp only []
  unfold validate_ecdsa p256_verify
  rfl

/-- C2 amended witness: the amended theorem applied to the concrete
counterexample certificate and primitives. -/
theorem sha384_p256_uses_sha256_witness :
    cexCert.signature_algorithm.algorithm = ECDSA_WITH_SHA384_ALGORITHM ∧
    validate CexPrims cexCert [] (.ECDSA (.CurveP256 [0])) =
      (match CexPrims.p256_sig_from_der cexCert.signature_value with
       | none => .err .InvalidSignatureEncoding
       | some s =>
         if CexPrims.p256_verify_prehash [0] (CexPrims.sha256 []) s then .ok ()
         else .err .InvalidSignature) :=
  ⟨rfl, sha384_p256_uses_sha256 CexPrims cexCert [] [0] rfl rfl⟩


/-- C9 witness: the universally quantified part of the statement applied to
the concrete TestPrims instantiation. -/
theorem peek_version_zero_default_witness :
    extract_attestation TestPrims (some [⟨KEY_ATTESTATION_OID, [0x30, 2, 4, 0]⟩]) =
      .err (.UnsupportedAttestationVersion 0) :=
  peek_version_zero_default.2 TestPrims

end Attestation
